import Mathlib

/-!
Verification of the Committee Orchestration Core of the AI-Analyst startup
evaluation service, as a shallow embedding of the Python source under
`backend/app`.  Numeric confidences are modelled as rationals; Python dicts
that preserve insertion order are modelled as association lists; a Python
function that may raise is modelled as a function into `Except`.
-/

namespace Spec2Proof

/-! ## Python string primitives

Models of the Python `str` methods the embedded functions use
(`lower`, `strip`, `split`, `startswith`, `endswith`, substring `in`),
written as structural recursions over the character list so that every
embedded function evaluates inside the kernel. -/

/-- Python whitespace for `str.strip`. -/
def pyWs (c : Char) : Bool :=
  c = ' ' || c = '\t' || c = '\n' || c = '\r' || c = Char.ofNat 11 || c = Char.ofNat 12

/-- Python `str.strip()`. -/
def strStrip (s : String) : String :=
  String.mk (((s.data.dropWhile pyWs).reverse.dropWhile pyWs).reverse)

/-- Python `str.lower()` (ASCII case mapping). -/
def strLower (s : String) : String :=
  String.mk (s.data.map Char.toLower)

/-- Python `s.startswith(pre)`. -/
def startsWithStr (s pre : String) : Bool :=
  pre.data.isPrefixOf s.data

/-- Python `s.endswith(suf)`. -/
def endsWithStr (s suf : String) : Bool :=
  suf.data.reverse.isPrefixOf s.data.reverse

/-- Occurrence test on character lists (Python `needle in hay`). -/
def subIn (needle : List Char) : List Char → Bool
  | [] => needle.isEmpty
  | c :: rest => needle.isPrefixOf (c :: rest) || subIn needle rest

/-- Python `s.split(sep)` for a non-empty separator: scan left to right,
emitting the accumulated segment at each non-overlapping occurrence. -/
def pySplitAux (sep : List Char) : ℕ → List Char → List Char → List (List Char)
  | 0, acc, rem => [acc.reverse ++ rem]
  | fuel + 1, acc, rem =>
    match rem with
    | [] => [acc.reverse]
    | c :: rest =>
      if sep.isPrefixOf rem then
        acc.reverse :: pySplitAux sep fuel [] (rem.drop sep.length)
      else pySplitAux sep fuel (c :: acc) rest

/-- Python `s.split(sep)`. -/
def pySplit (sep s : String) : List String :=
  (pySplitAux sep.data (s.length + 1) [] s.data).map String.mk

/-! ## Agent task boundary (`services/agents/adk_agent.py`) -/

/-- Response shape of `AgentResponse` (adk_agent.py lines 52-57): `success`,
`content`, optional `error`, and the metadata entries that the coordinators
later read (`confidence`, `sentiment`, `key_insights`). -/
structure AgentResponse where
  success : Bool
  content : String
  error : Option String
  metaConfidence : Option ℚ := none
  metaSentiment : Option String := none
  metaKeyInsights : Option String := none
deriving Repr, DecidableEq

/-- Outcome of the single external LLM invocation made inside
`ADKAgent.process_message` (adk_agent.py lines 195-212): the underlying
`generate_response` call either returns text, raises, or the agent object
exposes no generation method at all (the "not properly configured" branch). -/
inductive InvokeOutcome where
  | text (s : String)
  | raised (msg : String)
  | notConfigured
deriving Repr, DecidableEq

/-- Translation of `ADKAgent.process_message` (adk_agent.py lines 174-245).
The whole body is wrapped in `try/except Exception`, so a raising invocation
is converted into an `AgentResponse` with `success=False` and `error=str(e)`
(lines 234-245); the unconfigured branch returns `success=False` with
`error="Agent not properly configured"` (lines 207-222); a returned text
yields `success=True` with no error (lines 224-232). -/
def process_message (agentName : String) (o : InvokeOutcome) : AgentResponse :=
  match o with
  | .text s =>
      { success := true, content := s, error := none }
  | .notConfigured =>
      { success := false
        content := "I\x27m " ++ agentName ++ ", but I\x27m not properly configured to respond. Please check my configuration."
        error := some "Agent not properly configured" }
  | .raised msg =>
      { success := false
        content := "Error processing message with " ++ agentName ++ ": " ++ msg
        error := some msg }

/-- Translation of `ADKAgentManager.process_message` (adk_agent.py lines
307-385): an unknown agent name yields a `success=False` response with the
error populated; otherwise the agent response is propagated (the metadata
enrichment of lines 358-366 touches no field that the claims read). -/
def manager_process_message (agents : List String) (agentName : String)
    (o : InvokeOutcome) : AgentResponse :=
  if agents.contains agentName then process_message agentName o
  else
    { success := false
      content := "Agent \x27" ++ agentName ++ "\x27 not found"
      error := some ("Agent \x27" ++ agentName ++ "\x27 not found") }

/-! ## Orchestrator fan-in (`services/committee_coordinator_new.py`) -/

/-- Per-agent entry of `analysis_results` as built by
`CommitteeCoordinator.analyze_pitch` (committee_coordinator_new.py lines
94-115): `success`, `content`, `error`, the metadata, and a `confidence`
pulled out of the metadata with default `0.0`. -/
structure AgentResult where
  success : Bool
  content : String
  error : Option String
  confidence : ℚ
  metaSentiment : Option String := none
  metaKeyInsights : Option String := none
deriving Repr, DecidableEq

/-- Awaiting one agent task either returns its `AgentResponse` or raises;
`Except.error e` models the `except Exception` branch of the fan-in loop. -/
abbrev TaskOutcome := Except String AgentResponse

/-- Translation of one iteration of the fan-in loop of `analyze_pitch`
(committee_coordinator_new.py lines 79-115): an awaited response is converted
to a result dict whose confidence is `result.metadata.get('confidence', 0.0)`
(line 99); a task that raises `e` is recorded as a failure entry with
`error = "Agent <name> failed: <str(e)>"` and `confidence = 0.0`
(lines 104-115).  The `isinstance` guard of lines 86-91 cannot fire in the
typed embedding. -/
def record_outcome (name : String) (o : TaskOutcome) : AgentResult :=
  match o with
  | .ok r =>
      { success := r.success, content := r.content, error := r.error
        confidence := r.metaConfidence.getD 0
        metaSentiment := r.metaSentiment, metaKeyInsights := r.metaKeyInsights }
  | .error e =>
      { success := false, content := ""
        error := some ("Agent " ++ name ++ " failed: " ++ e)
        confidence := 0 }

/-- Whole fan-in loop of `analyze_pitch` (committee_coordinator_new.py lines
77-115): one `analysis_results` entry is produced per launched task, in task
order, whether the task returned or raised. -/
def analyze_pitch_results (tasks : List (String × TaskOutcome)) :
    List (String × AgentResult) :=
  tasks.map (fun t => (t.1, record_outcome t.1 t.2))

/-- Fan-in with per-task durations made explicit.  Neither `analyze_pitch`
(committee_coordinator_new.py lines 79-115, a bare `await task`) nor the
legacy `analyze_pitch` (committee_coordinator.py lines 516-537) applies
`asyncio.wait_for` or any deadline, so the recorded entry is a function of
the outcome alone and the duration is ignored. -/
def analyze_pitch_results_timed (tasks : List (String × ℚ × TaskOutcome)) :
    List (String × AgentResult) :=
  tasks.map (fun t => (t.1, record_outcome t.1 t.2.2))

/-- The `AgentResult` that the spec says a timed-out task should be recorded
as: `success=false`, `error="timeout"`, `confidence=0`. -/
def timeoutResult : AgentResult :=
  { success := false, content := "", error := some "timeout", confidence := 0 }

/-! ## Verdict generation, new coordinator (`committee_coordinator_new.py`) -/

/-- Mean of a list of rationals, with the source convention that an empty
list yields `0.0`. -/
def meanQ (xs : List ℚ) : ℚ :=
  if xs.length = 0 then 0 else xs.sum / (xs.length : ℚ)

/-- Entries of `agent_results` whose `success` flag is set
(`result.get('success', False)`). -/
def successfulResults (rs : List (String × AgentResult)) :
    List (String × AgentResult) :=
  rs.filter (fun p => p.2.success)

/-- Average confidence over successful results, committee_coordinator_new.py
lines 143-150: `sum(confidences) / len(confidences) if confidences else 0.0`.
No weights appear anywhere in the computation. -/
def avg_confidence (rs : List (String × AgentResult)) : ℚ :=
  meanQ ((successfulResults rs).map (fun p => p.2.confidence))

/-- Shape of the dict returned by the new coordinator's `_generate_verdict`
(committee_coordinator_new.py lines 159-197): the zero-quorum branch carries
only `verdict`, `confidence`, `reason`; the other branch carries `verdict`,
`confidence`, `successful_analyses`, `total_analyses`, `reasons`. -/
structure VerdictNew where
  verdict : String
  confidence : ℚ
  reason : Option String := none
  successful_analyses : Option ℕ := none
  total_analyses : Option ℕ := none
  reasons : List String := []
deriving Repr, DecidableEq

/-- Reasons list of `_generate_verdict` (committee_coordinator_new.py lines
180-189): for each successful agent, its metadata `key_insights` when
present, otherwise the first `'. '`-separated sentence of its content with a
trailing period; truncated to three entries (line 196). -/
def verdict_reasons_new (rs : List (String × AgentResult)) : List String :=
  ((successfulResults rs).map (fun p =>
    match p.2.metaKeyInsights with
    | some k => p.1 ++ ": " ++ k
    | none => p.1 ++ ": " ++ ((pySplit ". " p.2.content).headD p.2.content) ++ ".")).take 3

/-- Translation of the new coordinator's `_generate_verdict`
(committee_coordinator_new.py lines 133-197). -/
def generate_verdict_new (rs : List (String × AgentResult)) : VerdictNew :=
  let avg := avg_confidence rs
  let successful := (successfulResults rs).length
  if successful = 0 then
    { verdict := "INCONCLUSIVE", confidence := 0
      reason := some "No agents were able to analyze the pitch" }
  else
    let positive := (rs.filter (fun p =>
      p.2.success && (p.2.metaSentiment == some "positive"))).length
    let verdict :=
      if (positive : ℚ) ≥ (successful : ℚ) * (7/10) then "STRONG_INVEST"
      else if (positive : ℚ) ≥ (successful : ℚ) * (1/2) then "INVEST"
      else "CONSIDER"
    { verdict := verdict, confidence := avg
      successful_analyses := some successful
      total_analyses := some rs.length
      reasons := verdict_reasons_new rs }

/-! ## Verdict generation, legacy coordinator (`committee_coordinator.py`) -/

/-- One risk entry as read from agent metadata by the legacy
`_generate_verdict` (committee_coordinator.py lines 792-803), with the
source's default severity `0.5` already applied. -/
structure RiskDetail where
  severity : ℚ := 1/2
  mitigation : List String := []
deriving Repr, DecidableEq

/-- One opportunity entry (committee_coordinator.py lines 805-815), with the
default potential `0.5` already applied. -/
structure OppDetail where
  potential : ℚ := 1/2
  actions : List String := []
deriving Repr, DecidableEq

/-- One structured reason from agent metadata as consumed by
`_generate_verdict_reasons` (committee_coordinator.py lines 1004-1026). -/
structure ReasonEntry where
  category : String := "general"
  impact : ℚ := 0
  description : Option String := none
  evidence : List String := []
deriving Repr, DecidableEq

/-- Per-agent entry of `agent_results` as consumed by the legacy
`_generate_verdict`: `success`, `content`, `error`, the optional
`confidence` key (read as `result.get('confidence', 0.0)`, line 789), and
the metadata sub-dicts (`risk_factors`, `opportunities`, `reasons`) with
their numeric defaults already normalised.  `reasons_meta = none` models a
metadata dict with no `reasons` key (which routes `_generate_verdict_reasons`
to the unstructured-content fallback, lines 1029-1038). -/
structure AgentResultOld where
  success : Bool
  content : String := ""
  error : Option String := none
  confidence : Option ℚ := none
  risk_factors : List (String × RiskDetail) := []
  opportunities : List (String × OppDetail) := []
  reasons_meta : Option (List ReasonEntry) := none
deriving Repr, DecidableEq

/-- Successful entries of the legacy result dict (committee_coordinator.py
line 775). -/
def successfulOld (rs : List (String × AgentResultOld)) :
    List (String × AgentResultOld) :=
  rs.filter (fun p => p.2.success)

/-- Group an insertion-ordered list of key/value pairs by key, preserving
first-seen key order and appending values in traversal order — the effect of
the `setdefault`-style accumulation into `risk_factors` / `opportunities`
dicts in committee_coordinator.py lines 792-815. -/
def groupByKey {α : Type} (ps : List (String × α)) : List (String × List α) :=
  ps.foldl (fun acc p =>
    if acc.any (fun q => q.1 == p.1) then
      acc.map (fun q => if q.1 == p.1 then (q.1, q.2 ++ [p.2]) else q)
    else acc ++ [(p.1, [p.2])]) []

/-- Risk score of the legacy `_generate_verdict` (committee_coordinator.py
lines 838-846): default `0.5`; otherwise the mean over risk groups of each
group's mean severity. -/
def risk_score_old (rs : List (String × AgentResultOld)) : ℚ :=
  let groups := groupByKey (((successfulOld rs).map (fun p => p.2.risk_factors)).flatten)
  if groups.length = 0 then 1/2
  else meanQ (groups.map (fun g => meanQ (g.2.map (fun d => d.severity))))

/-- Opportunity score (committee_coordinator.py lines 848-857): default
`0.5`; otherwise the mean over opportunity groups of each group's mean
potential. -/
def opp_score_old (rs : List (String × AgentResultOld)) : ℚ :=
  let groups := groupByKey (((successfulOld rs).map (fun p => p.2.opportunities)).flatten)
  if groups.length = 0 then 1/2
  else meanQ (groups.map (fun g => meanQ (g.2.map (fun d => d.potential))))

/-- Risk/opportunity verdict matrix (committee_coordinator.py lines
860-870). -/
def verdict_matrix (risk opp : ℚ) : String :=
  if risk < 3/10 ∧ opp > 7/10 then "STRONG_INVEST"
  else if risk < 1/2 ∧ opp > 1/2 then "INVEST"
  else if risk < 7/10 ∧ opp > 3/10 then "CONSIDER"
  else if risk ≥ 7/10 ∧ opp < 3/10 then "PASS"
  else "HOLD"

/-- Accumulator entry of `all_reasons` in `_generate_verdict_reasons`
(committee_coordinator.py lines 1004-1038). -/
structure ReasonAcc where
  category : String
  impact : ℚ
  descriptions : List String
  evidence : List String
deriving Repr, DecidableEq

/-- Extend an evidence list with new items not already present, matching the
lazily-evaluated generator in `entry['evidence'].extend(...)`
(committee_coordinator.py lines 1022-1025). -/
def extendDedup (base new : List String) : List String :=
  new.foldl (fun b e => if b.contains e then b else b ++ [e]) base

/-- Fold one structured reason into the accumulator (committee_coordinator.py
lines 1005-1026): `setdefault` creates a zero entry, then impact is maxed,
the description appended, and evidence extended without duplicates. -/
def addReason (acc : List ReasonAcc) (r : ReasonEntry) : List ReasonAcc :=
  if acc.any (fun a => a.category == r.category) then
    acc.map (fun a =>
      if a.category == r.category then
        { a with impact := max a.impact r.impact
                 descriptions := a.descriptions ++
                   (match r.description with | some d => [d] | none => [])
                 evidence := extendDedup a.evidence r.evidence }
      else a)
  else
    acc ++ [{ category := r.category
              impact := max 0 r.impact
              descriptions := (match r.description with | some d => [d] | none => [])
              evidence := extendDedup [] r.evidence }]

/-- Fold the unstructured-content fallback into the accumulator
(committee_coordinator.py lines 1029-1038): category `unstructured`,
impact `1` on creation, the raw content appended as a description. -/
def addUnstructured (acc : List ReasonAcc) (content : String) : List ReasonAcc :=
  if acc.any (fun a => a.category == "unstructured") then
    acc.map (fun a =>
      if a.category == "unstructured" then
        { a with descriptions := a.descriptions ++ [content] }
      else a)
  else
    acc ++ [{ category := "unstructured", impact := 1
              descriptions := [content], evidence := [] }]

/-- Output shape of one reason produced by `_generate_verdict_reasons`
(committee_coordinator.py lines 1059-1065), with `source_agents` projected
away (a Python set with no order). -/
structure ReasonOut where
  category : String
  impact : String
  description : String
  supporting_evidence : List String
deriving Repr, DecidableEq

/-- Translation of `_generate_verdict_reasons` (committee_coordinator.py
lines 977-1069): accumulate reasons per category over successful agents,
convert to impact labels, join the first three descriptions, keep the first
three evidence items, stably sort high-impact first, truncate to five. -/
def generate_verdict_reasons (rs : List (String × AgentResultOld)) : List ReasonOut :=
  let acc := rs.foldl (fun acc p =>
    if ¬ p.2.success then acc
    else match p.2.reasons_meta with
      | some entries => entries.foldl addReason acc
      | none => if p.2.content ≠ "" then addUnstructured acc p.2.content else acc) []
  let converted := (acc.filter (fun a =>
      ¬ (a.descriptions.isEmpty && a.evidence.isEmpty))).map (fun a =>
    { category := a.category
      impact := if a.impact > (7/10 : ℚ) then "high"
                else if a.impact < (3/10 : ℚ) then "low" else "medium"
      description := String.intercalate " " (a.descriptions.take 3)
      supporting_evidence := a.evidence.take 3 : ReasonOut })
  ((converted.filter (fun r => r.impact == "high")) ++
   (converted.filter (fun r => r.impact != "high"))).take 5

/-- Shape of the dict returned by the legacy `_generate_verdict`
(committee_coordinator.py lines 754-772 for the `default_verdict` and lines
965-975 for the main return).  Neither branch ever includes a `reason`
string key, so `reason` is constantly `none`; `key_metrics` and the
detailed risk/opportunity payloads are projected to the fields the claims
read (scores and high-area names with average severities). -/
structure VerdictOld where
  verdict : String
  confidence : ℚ
  consensus : ℚ
  successful_analyses : ℕ
  total_analyses : ℕ
  overall_risk_score : ℚ
  overall_opportunity_score : ℚ
  high_risk_areas : List (String × ℚ)
  key_opportunities : List (String × ℚ)
  reason : Option String
  verdict_reasons : List ReasonOut
deriving Repr, DecidableEq

/-- The `default_verdict` dict (committee_coordinator.py lines 754-772):
verdict `HOLD`, confidence `0.0`, empty rollups, empty `verdict_reasons`,
and no reason string anywhere. -/
def default_verdict_old (total : ℕ) : VerdictOld :=
  { verdict := "HOLD", confidence := 0, consensus := 0
    successful_analyses := 0, total_analyses := total
    overall_risk_score := 1/2, overall_opportunity_score := 1/2
    high_risk_areas := [], key_opportunities := []
    reason := none, verdict_reasons := [] }

/-- Translation of the legacy `_generate_verdict` (committee_coordinator.py
lines 737-975): with no successful result the `default_verdict` is returned
(lines 774-778); otherwise confidence is the plain average of the successful
results' confidences (line 835), the verdict comes from the
risk/opportunity matrix, consensus is the success fraction, and high-risk /
key-opportunity areas are the groups with their average severities (a group
is surfaced as high risk only above `0.5`, line 906). -/
def generate_verdict_old (rs : List (String × AgentResultOld)) : VerdictOld :=
  let succ := successfulOld rs
  if succ.length = 0 then default_verdict_old rs.length
  else
    let confidences := succ.map (fun p => p.2.confidence.getD 0)
    let avg := meanQ confidences
    let risk := risk_score_old rs
    let opp := opp_score_old rs
    let riskGroups := groupByKey (((successfulOld rs).map (fun p => p.2.risk_factors)).flatten)
    let oppGroups := groupByKey (((successfulOld rs).map (fun p => p.2.opportunities)).flatten)
    { verdict := verdict_matrix risk opp
      confidence := avg
      consensus := (succ.length : ℚ) / (rs.length : ℚ)
      successful_analyses := succ.length
      total_analyses := rs.length
      overall_risk_score := risk
      overall_opportunity_score := opp
      high_risk_areas := (riskGroups.map (fun g =>
          (g.1, meanQ (g.2.map (fun d => d.severity))))).filter (fun g => g.2 > 1/2)
      key_opportunities := oppGroups.map (fun g =>
          (g.1, meanQ (g.2.map (fun d => d.potential))))
      reason := none
      verdict_reasons := generate_verdict_reasons rs }

/-- Modelled from the spec: per-agent weights and the aggregation
`weightedConfidence = Σ(confidence_i * weight_i) / Σ(weight_i)` over
successful results only.  The source coordinators configure no per-agent
weights at all, so this definition exists only to be compared with the
source's `avg_confidence`. -/
def spec_weighted_confidence (ws : List (ℚ × AgentResult)) : ℚ :=
  if ((ws.filter (fun p => p.2.success)).map (fun p => p.1)).sum = 0 then 0
  else ((ws.filter (fun p => p.2.success)).map (fun p => p.1 * p.2.confidence)).sum
        / ((ws.filter (fun p => p.2.success)).map (fun p => p.1)).sum

/-! ## Committee voting (`routers/deal_analysis.py`, `committee_coordinator.py`) -/

/-- The fixed vote-option order of `simulate_investment_committee`
(deal_analysis.py line 653). -/
def vote_options : List String :=
  ["STRONG_INVEST", "INVEST", "CONSIDER", "HIGH_RISK", "PASS", "Abstain"]

/-- The `vote_counts` dict comprehension of deal_analysis.py line 654: one
entry per option in the fixed order, counting occurrences among the members'
votes. -/
def vote_counts (votes : List String) : List (String × ℕ) :=
  vote_options.map (fun v => (v, (votes.filter (fun w => w == v)).length))

/-- The `voting_votes` filter of deal_analysis.py line 657: abstentions
removed, fixed order otherwise preserved. -/
def voting_votes (votes : List String) : List (String × ℕ) :=
  (vote_counts votes).filter (fun p => p.1 != "Abstain")

/-- Python's `max(..., key=...)` over an insertion-ordered dict: the first
key attaining the maximal value (later keys replace only on a strictly
greater value). -/
def max_by_value (l : List (String × ℕ)) : Option String :=
  match l with
  | [] => none
  | p :: rest =>
      some ((rest.foldl (fun best q => if q.2 > best.2 then q else best) p).1)

/-- The majority vote of `simulate_investment_committee` (deal_analysis.py
line 658): `max(voting_votes, key=voting_votes.get)` with `Abstain` as the
fallback for an empty dict (unreachable, since `voting_votes` always carries
the five non-abstain options). -/
def simulate_majority_vote (votes : List String) : String :=
  (max_by_value (voting_votes votes)).getD "Abstain"

/-- The `vote_counts` accumulation of `_run_committee_deliberation`
(committee_coordinator.py lines 222-225): keys appear in first-vote order,
counts incremented in place. -/
def tally_votes (votes : List String) : List (String × ℕ) :=
  votes.foldl (fun acc v =>
    if acc.any (fun p => p.1 == v) then
      acc.map (fun p => if p.1 == v then (p.1, p.2 + 1) else p)
    else acc ++ [(v, 1)]) []

/-- The final decision of `_run_committee_deliberation`
(committee_coordinator.py line 228): the first-inserted decision with the
highest count, or `HOLD` when no vote was parsed. -/
def deliberation_decision (votes : List String) : String :=
  (max_by_value (tally_votes votes)).getD "HOLD"

/-! ## Heuristic text fallback (`routers/deal_analysis.py` lines 68-121) -/

/-- Keyword list for the invest-leaning branch (deal_analysis.py line 73). -/
def invest_keywords : List String :=
  ["invest", "strong buy", "recommend invest", "positive", "bullish",
   "excited about", "great opportunity"]

/-- Keyword list for the pass-leaning branch (deal_analysis.py line 74). -/
def pass_keywords : List String :=
  ["pass", "not invest", "concerns", "red flags", "avoid", "negative",
   "bearish", "risky"]

/-- Keyword list for the neutral branch (deal_analysis.py line 75). -/
def consider_keywords : List String :=
  ["consider", "maybe", "further due diligence", "mixed", "neutral",
   "wait and see"]

/-- Python's substring test `needle in hay`. -/
def containsSub (hay needle : String) : Bool :=
  subIn needle.data hay.data

/-- Vote and base confidence of `extract_analysis_from_text`
(deal_analysis.py lines 77-88): keyword branches over the lower-cased text,
with confidences on the source's 0-100 scale. -/
def vote_confidence_base (text : String) : String × ℚ :=
  if invest_keywords.any (fun k => containsSub (strLower text) k) then ("INVEST", 70)
  else if pass_keywords.any (fun k => containsSub (strLower text) k) then ("PASS", 60)
  else if consider_keywords.any (fun k => containsSub (strLower text) k) then ("CONSIDER", 50)
  else ("CONSIDER", 40)

/-- The `role_confidence_map` lookup with default `0.7` (deal_analysis.py
lines 107-114). -/
def role_confidence_factor (role : String) : ℚ :=
  if role = "Risk Analyst" then 8/10
  else if role = "Market Expert" then 7/10
  else if role = "Finance Partner" then 9/10
  else if role = "Skeptical VC" then 6/10
  else 7/10

/-- Line-selection loop of `extract_analysis_from_text` (deal_analysis.py
lines 91-101): split the stripped text on newlines, strip each line, and
route lines longer than 20 characters that start with neither a code fence
nor an opening brace into the analysis (first hit) or reasoning lists. -/
def analysisReasoningLines (text : String) : List String × List String :=
  ((pySplit "\n" (strStrip text)).map strStrip).foldl
    (fun acc line =>
      if decide (20 < line.length) && !(startsWithStr line "\x60\x60\x60")
          && !(startsWithStr line "\x7b") then
        if acc.1.isEmpty then (acc.1 ++ [line], acc.2)
        else (acc.1, acc.2 ++ [line])
      else acc)
    (([], []) : List String × List String)

/-- Return shape of `extract_analysis_from_text` (deal_analysis.py lines
116-121). -/
structure TextAnalysis where
  analysis : String
  vote : String
  confidence : ℚ
  reasoning : String
deriving Repr, DecidableEq

/-- Translation of `extract_analysis_from_text` (deal_analysis.py lines
68-121).  The returned confidence is `min(base * role_factor, 100.0)` on
the source's 0-100 scale. -/
def extract_analysis_from_text (text role : String) : TextAnalysis :=
  let vb := vote_confidence_base text
  let ls := analysisReasoningLines text
  { analysis := ls.1.headD ("Analysis provided by " ++ role)
    vote := vb.1
    confidence := min (vb.2 * role_confidence_factor role) 100
    reasoning := ls.2.headD ("Based on " ++ strLower role ++ " perspective") }

/-! ## JSON extraction (`routers/deal_analysis.py` lines 34-66)

The embedding needs an executable model of Python's `json.loads`; the
following is a standard recursive-descent JSON reader over a character list
with explicit fuel.  Non-JSON inputs yield `none`, exactly where
`json.loads` raises `JSONDecodeError`. -/

/-- JSON values. -/
inductive Json where
  | null
  | bool (b : Bool)
  | num (q : ℚ)
  | str (s : String)
  | arr (elems : List Json)
  | obj (fields : List (String × Json))
deriving Repr

/-- The opening-brace character, kept out of literals. -/
def lbrace : Char := Char.ofNat 123

/-- The closing-brace character, kept out of literals. -/
def rbrace : Char := Char.ofNat 125

/-- JSON whitespace. -/
def isWsChar (c : Char) : Bool :=
  c = ' ' || c = '\t' || c = '\n' || c = '\r'

/-- Drop leading JSON whitespace. -/
def skipWs : List Char → List Char
  | c :: cs => if isWsChar c then skipWs cs else c :: cs
  | [] => []

/-- Match an expected literal tail (`ull`, `rue`, `alse`). -/
def dropLit : List Char → List Char → Option (List Char)
  | [], cs => some cs
  | p :: ps, c :: cs => if c = p then dropLit ps cs else none
  | _ :: _, [] => none

/-- Hexadecimal digit test (Python `isHexDigit` is not in this core). -/
def isHexDigitChar (c : Char) : Bool :=
  c.isDigit || ('a' ≤ c && c ≤ 'f') || ('A' ≤ c && c ≤ 'F')

/-- Hex digit value. -/
def hexVal (c : Char) : ℕ :=
  if c.isDigit then c.toNat - 48
  else if 'a' ≤ c ∧ c ≤ 'f' then c.toNat - 87
  else if 'A' ≤ c ∧ c ≤ 'F' then c.toNat - 70
  else 0

/-- Read the body of a JSON string literal (opening quote already consumed),
handling the escape sequences `json.loads` accepts; returns the decoded
characters and the remainder after the closing quote. -/
def parseStringChars : ℕ → List Char → Option (List Char × List Char)
  | 0, _ => none
  | _ + 1, [] => none
  | fuel + 1, c :: cs =>
    if c = '"' then some ([], cs)
    else if c = '\\' then
      match cs with
      | [] => none
      | e :: cs2 =>
        let dec : Option (Char × List Char) :=
          if e = '"' then some ('"', cs2)
          else if e = '\\' then some ('\\', cs2)
          else if e = '/' then some ('/', cs2)
          else if e = 'b' then some (Char.ofNat 8, cs2)
          else if e = 'f' then some (Char.ofNat 12, cs2)
          else if e = 'n' then some ('\n', cs2)
          else if e = 'r' then some ('\r', cs2)
          else if e = 't' then some ('\t', cs2)
          else if e = 'u' then
            match cs2 with
            | a :: b :: c2 :: d :: rest =>
              if isHexDigitChar a && isHexDigitChar b && isHexDigitChar c2 && isHexDigitChar d then
                some (Char.ofNat
                  (hexVal a * 4096 + hexVal b * 256 + hexVal c2 * 16 + hexVal d), rest)
              else none
            | _ => none
          else none
        match dec with
        | some (ch, rest) =>
            (parseStringChars fuel rest).map (fun p => (ch :: p.1, p.2))
        | none => none
    else (parseStringChars fuel cs).map (fun p => (c :: p.1, p.2))

/-- Split a leading run of decimal digits. -/
def takeDigits : List Char → List Char × List Char
  | [] => ([], [])
  | c :: cs =>
    if c.isDigit then
      let p := takeDigits cs
      (c :: p.1, p.2)
    else ([], c :: cs)

/-- Decimal value of a digit run. -/
def digitsToNat (ds : List Char) : ℕ :=
  ds.foldl (fun n c => n * 10 + (c.toNat - 48)) 0

/-- Read a JSON number (sign, integer part, optional fraction, optional
exponent) as an exact rational. -/
def parseNumber (cs : List Char) : Option (ℚ × List Char) :=
  let signSplit : Bool × List Char :=
    match cs with
    | c :: rest => if c = '-' then (true, rest) else (false, cs)
    | [] => (false, [])
  let neg := signSplit.1
  let ipSplit := takeDigits signSplit.2
  if ipSplit.1.isEmpty then none
  else
    let fracStep : Option (ℚ × List Char) :=
      match ipSplit.2 with
      | c :: rest =>
        if c = '.' then
          let fd := takeDigits rest
          if fd.1.isEmpty then none
          else some ((digitsToNat fd.1 : ℚ) / ((10 : ℚ) ^ fd.1.length), fd.2)
        else some (0, ipSplit.2)
      | [] => some (0, [])
    match fracStep with
    | none => none
    | some (fv, cs3) =>
      let base : ℚ := (digitsToNat ipSplit.1 : ℚ) + fv
      let signed := if neg then -base else base
      match cs3 with
      | c :: rest =>
        if c = 'e' ∨ c = 'E' then
          let expSplit : ℤ × List Char :=
            match rest with
            | d :: r2 =>
              if d = '+' then (1, r2)
              else if d = '-' then (-1, r2)
              else (1, rest)
            | [] => (1, [])
          let ed := takeDigits expSplit.2
          if ed.1.isEmpty then none
          else some (signed * (10 : ℚ) ^ (expSplit.1 * (digitsToNat ed.1 : ℤ)), ed.2)
        else some (signed, cs3)
      | [] => some (signed, [])

mutual

/-- Read one JSON value. -/
def parseValue : ℕ → List Char → Option (Json × List Char)
  | 0, _ => none
  | fuel + 1, cs =>
    match skipWs cs with
    | [] => none
    | c :: rest =>
      if c = 'n' then (dropLit ['u', 'l', 'l'] rest).map (fun r => (Json.null, r))
      else if c = 't' then (dropLit ['r', 'u', 'e'] rest).map (fun r => (Json.bool true, r))
      else if c = 'f' then (dropLit ['a', 'l', 's', 'e'] rest).map (fun r => (Json.bool false, r))
      else if c = '"' then
        (parseStringChars fuel rest).map (fun p => (Json.str (String.mk p.1), p.2))
      else if c = '[' then
        match skipWs rest with
        | ']' :: rest2 => some (Json.arr [], rest2)
        | _ => (parseElems fuel rest).map (fun p => (Json.arr p.1, p.2))
      else if c = lbrace then
        match skipWs rest with
        | d :: rest2 =>
          if d = rbrace then some (Json.obj [], rest2)
          else (parseFields fuel rest).map (fun p => (Json.obj p.1, p.2))
        | [] => none
      else (parseNumber (c :: rest)).map (fun p => (Json.num p.1, p.2))

/-- Read the comma-separated elements of a non-empty array (opening bracket
consumed). -/
def parseElems : ℕ → List Char → Option (List Json × List Char)
  | 0, _ => none
  | fuel + 1, cs =>
    match parseValue fuel cs with
    | none => none
    | some (v, rest) =>
      match skipWs rest with
      | ',' :: rest2 => (parseElems fuel rest2).map (fun p => (v :: p.1, p.2))
      | ']' :: rest2 => some ([v], rest2)
      | _ => none

/-- Read the key/value pairs of a non-empty object (opening brace
consumed). -/
def parseFields : ℕ → List Char → Option (List (String × Json) × List Char)
  | 0, _ => none
  | fuel + 1, cs =>
    match skipWs cs with
    | [] => none
    | c :: rest =>
      if c = '"' then
        match parseStringChars fuel rest with
        | none => none
        | some (key, rest2) =>
          match skipWs rest2 with
          | ':' :: rest3 =>
            match parseValue fuel rest3 with
            | none => none
            | some (v, rest4) =>
              match skipWs rest4 with
              | d :: rest5 =>
                if d = ',' then
                  (parseFields fuel rest5).map
                    (fun p => ((String.mk key, v) :: p.1, p.2))
                else if d = rbrace then some ([(String.mk key, v)], rest5)
                else none
              | [] => none
          | _ => none
      else none

end

/-- Model of Python's `json.loads`: parse one value and require only
whitespace to remain; `none` where `json.loads` raises. -/
def json_loads (s : String) : Option Json :=
  match parseValue (4 * s.length + 4) s.toList with
  | some (v, rest) => if (skipWs rest).isEmpty then some v else none
  | none => none

/-- Consume a balanced brace block (opening brace already consumed),
returning the block's characters (closing brace included) and the rest. -/
def takeBalanced : ℕ → List Char → ℕ → Option (List Char × List Char)
  | 0, _, _ => none
  | _ + 1, [], _ => none
  | fuel + 1, c :: cs, depth =>
    if c = rbrace then
      if depth = 0 then some ([c], cs)
      else (takeBalanced fuel cs (depth - 1)).map (fun p => (c :: p.1, p.2))
    else if c = lbrace then
      (takeBalanced fuel cs (depth + 1)).map (fun p => (c :: p.1, p.2))
    else (takeBalanced fuel cs depth).map (fun p => (c :: p.1, p.2))

/-- Scan for balanced brace blocks left to right, non-overlapping. -/
def braceBlocks : ℕ → List Char → List String
  | 0, _ => []
  | _ + 1, [] => []
  | fuel + 1, c :: cs =>
    if c = lbrace then
      match takeBalanced (cs.length + 1) cs 0 with
      | some (block, rest) => String.mk (c :: block) :: braceBlocks fuel rest
      | none => braceBlocks fuel cs
    else braceBlocks fuel cs

/-- Model of the `re.findall` candidate-extraction loop of
`extract_json_from_response` (deal_analysis.py lines 42-56): the four
`json_patterns` all match only brace-delimited blocks, each candidate is
subsequently filtered through `json.loads`, and on a brace-free response
both the source and this model produce no candidate at all. -/
def jsonCandidates (response : String) : List String :=
  braceBlocks (response.length + 1) response.toList

/-- First candidate that `json.loads` accepts (deal_analysis.py lines
50-56). -/
def firstParsable : List String → Option Json
  | [] => none
  | c :: cs =>
    match json_loads c with
    | some j => some j
    | none => firstParsable cs

/-- Translation of `extract_json_from_response` (deal_analysis.py lines
34-66): direct parse, then regex candidates, then a trimmed retry when the
response is brace-delimited; when everything fails the function RAISES
`json.JSONDecodeError("No valid JSON found in response", ...)`, modelled as
`Except.error`. -/
def extract_json_from_response (response : String) : Except String Json :=
  match json_loads response with
  | some j => .ok j
  | none =>
    match firstParsable (jsonCandidates response) with
    | some j => .ok j
    | none =>
      let cleaned := strStrip response
      if startsWithStr cleaned "\x7b" && endsWithStr cleaned "\x7d" then
        match json_loads cleaned with
        | some j => .ok j
        | none => .error "No valid JSON found in response"
      else .error "No valid JSON found in response"

/-! ## Progress pipeline and status endpoint (`routers/analysis.py`) -/

/-- One progress event as delivered through
`ConnectionManager.send_progress_update` (websocket_manager.py lines
28-61). -/
structure ProgressEvent where
  message : String
  percent : ℤ
deriving Repr, DecidableEq

/-- Observable trace of one `run_analysis` invocation: the progress events
emitted to subscribers of the analysis id, and the result stored into
`analysis_results` (none when nothing is stored). -/
structure RunAnalysisTrace where
  events : List ProgressEvent
  storedStatus : Option String
deriving Repr, DecidableEq

/-- Translation of `run_analysis` (analysis.py lines 69-208).  The first
statement of the body is `return {}` (line 77), so the function returns
immediately: no progress event is ever emitted and nothing is stored.  All
code below line 77 — the `update_progress` calls at 10%, 95% and 100% and
the store at line 139 — is unreachable; moreover it would call
`committee.analyze_pitch_with_progress` (line 98), a method defined on no
coordinator class, so even without the early return the body would raise
before emitting anything past the initial 10% event. -/
def run_analysis (_analysis_id _pitch : String) : RunAnalysisTrace :=
  { events := [], storedStatus := none }

/-- Response of the status endpoint, projected to the fields the claim
reads. -/
structure StatusResponse where
  analysisId : String
  status : String
  recommendation : String
  confidence : ℚ
  message : String
deriving Repr, DecidableEq

/-- Translation of `get_analysis_status` (analysis.py lines 247-832): after
`time.sleep(5)` the handler unconditionally returns the hardcoded completed
payload of lines 260-760 — the requested `analysis_id` and the
`analysis_results` store are never consulted, and the lookup/404 code from
line 761 on is unreachable.  The payload is projected to its identifying
fields; the recommendation and confidence come from the embedded
`final_verdict` (lines 685-692, float `0.48500000000000004` modelled as the
decimal it prints from). -/
def get_analysis_status (_analysis_id : String)
    (_store : List (String × String)) : StatusResponse :=
  { analysisId := "19038f62-6e59-4eda-b50e-e02a6d8bb055"
    status := "completed"
    recommendation := "CONSIDER"
    confidence := 485 / 1000
    message := "" }

/-- Concrete failed agent-result literal used in instantiations. -/
def failedResult : AgentResult :=
  { success := false, content := "", error := some "x", confidence := 0 }

/-- Concrete failed legacy-result literal. -/
def failedResultOld : AgentResultOld := { success := false }

/-- Concrete successful agent-result literal carrying a given confidence. -/
def okResult (c : ℚ) : AgentResult :=
  { success := true, content := "", error := none, confidence := c }

/-- Concrete successful agent-response literal. -/
def okResponse : AgentResponse :=
  { success := true, content := "ok", error := none }

/-! ## Helper lemmas -/

/-- A failure response from `process_message` always carries an error. -/
lemma process_message_failure (n : String) (o : InvokeOutcome) :
    (process_message n o).success = false → (process_message n o).error ≠ none := by
  cases o <;> simp [process_message]

/-- A failure response from the manager always carries an error. -/
lemma manager_process_message_failure (agents : List String) (n : String)
    (o : InvokeOutcome) :
    (manager_process_message agents n o).success = false →
      (manager_process_message agents n o).error ≠ none := by
  unfold manager_process_message
  split
  · exact process_message_failure n o
  · simp

/-- The confidence field of the new coordinator's verdict is always the
plain average over successful results (in the zero-quorum branch both are
`0`). -/
lemma generate_verdict_new_confidence (rs : List (String × AgentResult)) :
    (generate_verdict_new rs).confidence = avg_confidence rs := by
  unfold generate_verdict_new
  by_cases h : (successfulResults rs).length = 0
  · simp [h, avg_confidence, meanQ]
  · simp [h]

/-- Zero-quorum branch of the new coordinator's verdict generator. -/
lemma generate_verdict_new_zero (rs : List (String × AgentResult))
    (h : successfulResults rs = []) :
    generate_verdict_new rs =
      { verdict := "INCONCLUSIVE", confidence := 0
        reason := some "No agents were able to analyze the pitch" } := by
  unfold generate_verdict_new
  simp [h]

/-- Zero-quorum branch of the legacy verdict generator. -/
lemma generate_verdict_old_zero (rs : List (String × AgentResultOld))
    (h : successfulOld rs = []) :
    generate_verdict_old rs = default_verdict_old rs.length := by
  unfold generate_verdict_old
  simp [h]

/-- Filtering successes commutes with pairing each result with the weight
`1`. -/
lemma filter_map_ones (rs : List (String × AgentResult)) :
    (rs.map (fun p => ((1 : ℚ), p.2))).filter (fun q => q.2.success)
      = (successfulResults rs).map (fun p => ((1 : ℚ), p.2)) := by
  unfold successfulResults
  induction rs with
  | nil => rfl
  | cons hd tl ih =>
    by_cases h : hd.2.success <;> simp [List.filter_cons, h, ih]

/-- Weight-one pairs: numerator of the spec formula reduces to the plain
sum of confidences. -/
lemma ones_num (S : List (String × AgentResult)) :
    ((S.map (fun p => ((1 : ℚ), p.2))).map (fun p => p.1 * p.2.confidence)).sum
      = (S.map (fun p => p.2.confidence)).sum := by
  induction S with
  | nil => rfl
  | cons hd tl ih =>
    simp only [List.map_cons, List.sum_cons, one_mul] at *
    rw [ih]

/-- Weight-one pairs: denominator of the spec formula reduces to the
count. -/
lemma ones_den (S : List (String × AgentResult)) :
    ((S.map (fun p => ((1 : ℚ), p.2))).map (fun p => p.1)).sum = (S.length : ℚ) := by
  induction S with
  | nil => simp
  | cons hd tl ih =>
    simp only [List.map_cons, List.sum_cons, List.length_cons] at *
    rw [ih]
    push_cast
    ring

/-- With all weights `1`, the spec's weighted-confidence formula collapses
to the source's plain average. -/
lemma spec_weighted_ones (rs : List (String × AgentResult)) :
    spec_weighted_confidence (rs.map (fun p => ((1 : ℚ), p.2)))
      = avg_confidence rs := by
  unfold spec_weighted_confidence avg_confidence meanQ
  rw [filter_map_ones, ones_num, ones_den]
  simp only [List.length_map]
  by_cases h : (successfulResults rs).length = 0
  · simp [h]
  · have hne : ((successfulResults rs).length : ℚ) ≠ 0 := by exact_mod_cast h
    rw [if_neg hne, if_neg h]

/-- Evaluation lemma: the keyword classifier on the empty text takes the
default branch. -/
lemma vote_base_empty : vote_confidence_base "" = ("CONSIDER", 40) := rfl

/-- Evaluation lemma: the keyword classifier fires the invest branch on the
text `"invest"`. -/
lemma vote_base_invest : vote_confidence_base "invest" = ("INVEST", 70) := rfl

/-- Evaluation lemma: an unmapped role gets the default factor. -/
lemma role_factor_default : role_confidence_factor "x" = 7/10 := rfl

/-- Evaluation lemma: the Finance Partner factor. -/
lemma role_factor_finance : role_confidence_factor "Finance Partner" = 9/10 := rfl

/-- Base confidence of the keyword classifier is one of the four source
constants. -/
lemma vote_base_mem (text : String) :
    (vote_confidence_base text).2 = 70 ∨ (vote_confidence_base text).2 = 60
  ∨ (vote_confidence_base text).2 = 50 ∨ (vote_confidence_base text).2 = 40 := by
  unfold vote_confidence_base
  split_ifs <;> simp

/-- Role factor is one of the four map values or the default. -/
lemma role_factor_mem (role : String) :
    role_confidence_factor role = 8/10 ∨ role_confidence_factor role = 7/10
  ∨ role_confidence_factor role = 9/10 ∨ role_confidence_factor role = 6/10 := by
  unfold role_confidence_factor
  split_ifs <;> simp

/-- The fallback confidence formula. -/
lemma conf_formula (text role : String) :
    (extract_analysis_from_text text role).confidence
      = min ((vote_confidence_base text).2 * role_confidence_factor role) 100 := rfl

/-- The fallback confidence always lies in `[24, 63]` on the source's
0-100 scale. -/
lemma conf_bounds (text role : String) :
    24 ≤ (extract_analysis_from_text text role).confidence
  ∧ (extract_analysis_from_text text role).confidence ≤ 63 := by
  rw [conf_formula]
  rcases vote_base_mem text with h | h | h | h <;>
    rcases role_factor_mem role with g | g | g | g <;>
      rw [h, g] <;> norm_num [min_def]

/-- The fallback vote is always one of the three keyword branches. -/
lemma vote_mem (text role : String) :
    (extract_analysis_from_text text role).vote = "INVEST"
  ∨ (extract_analysis_from_text text role).vote = "PASS"
  ∨ (extract_analysis_from_text text role).vote = "CONSIDER" := by
  show (vote_confidence_base text).1 = _ ∨ (vote_confidence_base text).1 = _
    ∨ (vote_confidence_base text).1 = _
  unfold vote_confidence_base
  split_ifs <;> simp

/-! ## Claim theorems -/

/-- C1: the per-task boundary (`ADKAgent.process_message` /
`ADKAgentManager.process_message`) never raises — every failure mode comes
back inside an `AgentResponse` with `success=false` and `error` populated —
and the fan-in loop of `CommitteeCoordinator.analyze_pitch` records exactly
one result entry per configured agent, in task order, even when a task
throws (a thrown task yields a `success=false` entry with a populated
error). -/
theorem C1_task_isolation (agents : List String) (name : String)
    (o : InvokeOutcome) (tasks : List (String × TaskOutcome)) :
    ((manager_process_message agents name o).success = false →
      (manager_process_message agents name o).error ≠ none)
  ∧ (analyze_pitch_results tasks).length = tasks.length
  ∧ (analyze_pitch_results tasks).map Prod.fst = tasks.map Prod.fst
  ∧ (∀ n e, (record_outcome n (Except.error e)).success = false
      ∧ (record_outcome n (Except.error e)).error ≠ none) := by
  refine ⟨manager_process_message_failure agents name o, ?_, ?_, ?_⟩
  · simp [analyze_pitch_results]
  · simp [analyze_pitch_results]
  · intro n e
    simp [record_outcome]

/-- C1 witness: the raising invocation of a configured agent comes back as
a populated error, and the fan-in applies to a concrete one-task list. -/
theorem C1_task_isolation_witness :
    (manager_process_message ["financial_analyst"] "financial_analyst"
      (InvokeOutcome.raised "boom")).error ≠ none :=
  (C1_task_isolation ["financial_analyst"] "financial_analyst"
    (InvokeOutcome.raised "boom")
    [("financial_analyst", Except.error "boom")]).1 (by decide)

/-- C2 counterexample: the normalizer tiers do not satisfy the claim —
`extract_json_from_response` raises (`JSONDecodeError`, modelled as
`Except.error`) on the JSON-free input `"hello"`, and the tier-3 fallback
`extract_analysis_from_text` on the empty text returns confidence `28`
(0-100 scale), which is not in `[0,1]`. -/
theorem C2_normalizer_counterexample :
    extract_json_from_response "hello" = Except.error "No valid JSON found in response"
  ∧ (extract_analysis_from_text "" "x").confidence = 28
  ∧ ¬ ((extract_analysis_from_text "" "x").confidence ≤ 1) := by
  have hc : (extract_analysis_from_text "" "x").confidence = 28 := by
    rw [conf_formula, vote_base_empty, role_factor_default]
    norm_num [min_def]
  refine ⟨rfl, hc, ?_⟩
  rw [hc]
  norm_num

/-- C2 amended: the tier-3 fallback `extract_analysis_from_text` is total
and always yields a structured result whose confidence lies in `[24, 63]`
on the source's 0-100 scale (not the claimed `[0,1]`) and whose vote is one
of the three keyword branches; `extract_json_from_response`, by contrast,
raises `JSONDecodeError` whenever no parseable JSON can be found. -/
theorem C2_normalizer_amended (text role : String) :
    24 ≤ (extract_analysis_from_text text role).confidence
  ∧ (extract_analysis_from_text text role).confidence ≤ 63
  ∧ ((extract_analysis_from_text text role).vote = "INVEST"
    ∨ (extract_analysis_from_text text role).vote = "PASS"
    ∨ (extract_analysis_from_text text role).vote = "CONSIDER") :=
  ⟨(conf_bounds text role).1, (conf_bounds text role).2, vote_mem text role⟩

/-- C3 counterexample: the legacy `_generate_verdict`
(committee_coordinator.py) on an all-failed result set returns the
`default_verdict` — verdict `HOLD` with confidence `0` — but carries NO
descriptive reason string: there is no `reason` key and `verdict_reasons`
is empty, contradicting the claim's "accompanied by an explicit descriptive
reason string". -/
theorem C3_zero_quorum_counterexample :
    (generate_verdict_old
      [("financial_analyst", failedResultOld), ("market_analyst", failedResultOld)]).verdict = "HOLD"
  ∧ (generate_verdict_old
      [("financial_analyst", failedResultOld), ("market_analyst", failedResultOld)]).confidence = 0
  ∧ (generate_verdict_old
      [("financial_analyst", failedResultOld), ("market_analyst", failedResultOld)]).reason = none
  ∧ (generate_verdict_old
      [("financial_analyst", failedResultOld), ("market_analyst", failedResultOld)]).verdict_reasons = [] := by
  refine ⟨rfl, rfl, rfl, rfl⟩

/-- C3 amended: on zero quorum both generators return confidence `0` and a
sentinel verdict, but only the new coordinator attaches the descriptive
reason string ("No agents were able to analyze the pitch"); the legacy
coordinator returns `HOLD` with no reason string and an empty
`verdict_reasons` list. -/
theorem C3_zero_quorum_amended
    (rsNew : List (String × AgentResult)) (rsOld : List (String × AgentResultOld))
    (hNew : ∀ p ∈ rsNew, p.2.success = false)
    (hOld : ∀ p ∈ rsOld, p.2.success = false) :
    (generate_verdict_new rsNew).verdict = "INCONCLUSIVE"
  ∧ (generate_verdict_new rsNew).confidence = 0
  ∧ (generate_verdict_new rsNew).reason
      = some "No agents were able to analyze the pitch"
  ∧ (generate_verdict_old rsOld).verdict = "HOLD"
  ∧ (generate_verdict_old rsOld).confidence = 0
  ∧ (generate_verdict_old rsOld).reason = none
  ∧ (generate_verdict_old rsOld).verdict_reasons = [] := by
  have hN : successfulResults rsNew = [] := by
    unfold successfulResults
    rw [List.filter_eq_nil_iff]
    intro a ha
    simp [hNew a ha]
  have hO : successfulOld rsOld = [] := by
    unfold successfulOld
    rw [List.filter_eq_nil_iff]
    intro a ha
    simp [hOld a ha]
  rw [generate_verdict_new_zero rsNew hN, generate_verdict_old_zero rsOld hO]
  refine ⟨rfl, rfl, rfl, rfl, rfl, rfl, rfl⟩

/-- C3 witness: the amended statement at a concrete all-failed result
set. -/
theorem C3_zero_quorum_witness :
    (generate_verdict_new [("a", failedResult)]).verdict = "INCONCLUSIVE" :=
  (C3_zero_quorum_amended [("a", failedResult)] [("b", failedResultOld)]
    (by intro p hp; simp at hp; simp [hp, failedResult])
    (by intro p hp; simp at hp; simp [hp, failedResultOld])).1

/-- C4 counterexample: two successful agents with confidences `1` and `0`
and (spec-modelled) weights `3/4` and `1/4`: the verdict generator returns
the plain average `1/2`, while the claimed weighted formula gives `3/4`. -/
theorem C4_weighting_counterexample :
    (generate_verdict_new
      [("financial_analyst", okResult 1), ("market_analyst", okResult 0)]).confidence = 1/2
  ∧ spec_weighted_confidence [((3 : ℚ)/4, okResult 1), ((1 : ℚ)/4, okResult 0)] = 3/4
  ∧ ((1 : ℚ)/2 ≠ 3/4) := by
  refine ⟨?_, ?_, by norm_num⟩
  · rw [generate_verdict_new_confidence]
    norm_num [avg_confidence, successfulResults, meanQ, okResult]
  · norm_num [spec_weighted_confidence, okResult]

/-- C4 amended: with at least one success, the aggregated confidence is the
UNWEIGHTED arithmetic mean `Σ confidence_i / n` over the successful results
(no per-agent weights are configured anywhere); it coincides with the
spec's weighted formula exactly in the all-weights-equal case. -/
theorem C4_weighting_amended (rs : List (String × AgentResult))
    (h : 0 < (successfulResults rs).length) :
    (generate_verdict_new rs).confidence
      = ((successfulResults rs).map (fun p => p.2.confidence)).sum
          / ((successfulResults rs).length : ℚ)
  ∧ (generate_verdict_new rs).confidence
      = spec_weighted_confidence (rs.map (fun p => ((1 : ℚ), p.2))) := by
  rw [generate_verdict_new_confidence, spec_weighted_ones]
  refine ⟨?_, rfl⟩
  unfold avg_confidence meanQ
  simp only [List.length_map]
  rw [if_neg h.ne']

/-- C4 witness: the amended statement at a concrete result set with one
success. -/
theorem C4_weighting_witness :
    (generate_verdict_new [("a", okResult (4/5))]).confidence
      = ((successfulResults [("a", okResult (4/5))]).map
          (fun p => p.2.confidence)).sum
        / ((successfulResults [("a", okResult (4/5))]).length : ℚ) :=
  (C4_weighting_amended [("a", okResult (4/5))] (by decide)).1

/-- C5 counterexample: in `_run_committee_deliberation`
(committee_coordinator.py line 228) an equal-weight INVEST/PASS tie does
NOT deterministically resolve to INVEST: when the PASS-voting member is
iterated first, the tally is tied at one vote each and `max` returns the
first-inserted key, PASS. -/
theorem C5_tiebreak_counterexample :
    tally_votes ["PASS", "INVEST"] = [("PASS", 1), ("INVEST", 1)]
  ∧ deliberation_decision ["PASS", "INVEST"] = "PASS"
  ∧ ("PASS" : String) ≠ "INVEST" := by
  refine ⟨by decide, by decide, by decide⟩

/-- C5 amended: the optimistic tie-break holds only in
`simulate_investment_committee` (deal_analysis.py lines 651-662), where the
counts dict is keyed in the fixed order STRONG_INVEST, INVEST, CONSIDER,
HIGH_RISK, PASS, so a two-member INVEST/PASS tie resolves to INVEST
regardless of member order; in `_run_committee_deliberation` the tally is
keyed in first-vote order and a tie resolves to whichever decision was
parsed first, so PASS wins when the PASS voter precedes the INVEST one. -/
theorem C5_tiebreak_amended (v1 v2 : String)
    (h : v1 = "INVEST" ∧ v2 = "PASS" ∨ v1 = "PASS" ∧ v2 = "INVEST") :
    simulate_majority_vote [v1, v2] = "INVEST"
  ∧ deliberation_decision ["INVEST", "PASS"] = "INVEST"
  ∧ deliberation_decision ["PASS", "INVEST"] = "PASS" := by
  rcases h with ⟨h1, h2⟩ | ⟨h1, h2⟩ <;> subst h1 <;> subst h2 <;>
    exact ⟨by decide, by decide, by decide⟩

/-- C5 witness: the amended statement at the concrete INVEST-first pair. -/
theorem C5_tiebreak_witness :
    simulate_majority_vote ["INVEST", "PASS"] = "INVEST" :=
  (C5_tiebreak_amended "INVEST" "PASS" (Or.inl ⟨rfl, rfl⟩)).1

/-- C6 counterexample: a task whose duration (61) exceeds the spec's
default deadline (60) but completes successfully is recorded as a SUCCESS
with no error — not abandoned, and not recorded as the
`success=false`/`error="timeout"`/`confidence=0` result the claim
requires. -/
theorem C6_timeout_counterexample :
    (60 : ℚ) < 61
  ∧ analyze_pitch_results_timed [("financial_analyst", 61, Except.ok okResponse)]
      = [("financial_analyst", { okResult 0 with content := "ok" })]
  ∧ (record_outcome "financial_analyst" (Except.ok okResponse)).success = true
  ∧ (record_outcome "financial_analyst" (Except.ok okResponse)).error = none
  ∧ (record_outcome "financial_analyst" (Except.ok okResponse) ≠ timeoutResult) := by
  refine ⟨by norm_num, rfl, rfl, rfl, by decide⟩

/-- C6 amended: the orchestrator applies NO per-task deadline — every task
is awaited to completion and its result recorded regardless of elapsed
time — and a task that raises is recorded with `success=false`,
`confidence=0` and `error = "Agent <name> failed: <msg>"`; the error string
`"timeout"` is never produced. -/
theorem C6_timeout_amended (tasks : List (String × ℚ × TaskOutcome)) :
    analyze_pitch_results_timed tasks
      = analyze_pitch_results (tasks.map (fun t => (t.1, t.2.2)))
  ∧ (∀ n e, record_outcome n (Except.error e)
      = { success := false, content := ""
          error := some ("Agent " ++ n ++ " failed: " ++ e), confidence := 0 }) := by
  constructor
  · simp [analyze_pitch_results_timed, analyze_pitch_results]
  · intro n e
    rfl

/-- C7: `run_analysis` (analysis.py lines 69-208) emits NO progress events
at all — its first statement is `return \x7b\x7d` (line 77), so the
10/95/100-percent emissions below it are unreachable (and would in any case
call the nonexistent `analyze_pitch_with_progress`); in particular no final
percentage of 100 is ever delivered and nothing is stored. -/
theorem C7_no_progress_events (analysis_id pitch : String) :
    (run_analysis analysis_id pitch).events = []
  ∧ ((run_analysis analysis_id pitch).events.map ProgressEvent.percent).getLast?
      ≠ some 100
  ∧ (run_analysis analysis_id pitch).storedStatus = none := by
  refine ⟨rfl, by simp [run_analysis], rfl⟩

/-- C8 counterexample: the tier-3 fallback on the text `"invest"` for the
role `"Finance Partner"` assigns confidence `63` on the 0-100 scale, i.e.
`0.63` normalized, which exceeds the claimed bound `0.6`. -/
theorem C8_fallback_counterexample :
    (extract_analysis_from_text "invest" "Finance Partner").confidence = 63
  ∧ ¬ ((extract_analysis_from_text "invest" "Finance Partner").confidence / 100
        ≤ 6/10) := by
  have hc : (extract_analysis_from_text "invest" "Finance Partner").confidence = 63 := by
    rw [conf_formula, vote_base_invest, role_factor_finance]
    norm_num [min_def]
  refine ⟨hc, ?_⟩
  rw [hc]
  norm_num

/-- C8 amended: the fallback confidence is bounded by `63` on the source's
0-100 scale — `0.63` normalized (the maximum is the invest branch's `70`
times the Finance Partner factor `0.9`) — for every input text and every
role. -/
theorem C8_fallback_amended (text role : String) :
    (extract_analysis_from_text text role).confidence ≤ 63
  ∧ (extract_analysis_from_text text role).confidence / 100 ≤ 63/100 := by
  refine ⟨(conf_bounds text role).2, ?_⟩
  have h := (conf_bounds text role).2
  linarith

/-- C9: increasing the confidence of one successful agent result, holding
everything else fixed, never decreases the aggregated confidence returned
by the verdict generator. -/
theorem C9_weighting_monotonicity (pre post : List (String × AgentResult))
    (name : String) (r1 r2 : AgentResult)
    (h1 : r1.success = true) (h2 : r2.success = true)
    (_heq : r1.content = r2.content ∧ r1.error = r2.error)
    (hc : r1.confidence ≤ r2.confidence) :
    (generate_verdict_new (pre ++ [(name, r1)] ++ post)).confidence
      ≤ (generate_verdict_new (pre ++ [(name, r2)] ++ post)).confidence := by
  rw [generate_verdict_new_confidence, generate_verdict_new_confidence]
  unfold avg_confidence successfulResults meanQ
  have e1 : (pre ++ [(name, r1)] ++ post).filter (fun p => p.2.success)
      = pre.filter (fun p => p.2.success) ++ [(name, r1)]
        ++ post.filter (fun p => p.2.success) := by
    simp [List.filter_append, List.filter_cons, h1]
  have e2 : (pre ++ [(name, r2)] ++ post).filter (fun p => p.2.success)
      = pre.filter (fun p => p.2.success) ++ [(name, r2)]
        ++ post.filter (fun p => p.2.success) := by
    simp [List.filter_append, List.filter_cons, h2]
  rw [e1, e2]
  simp only [List.map_append, List.sum_append, List.length_append,
    List.map_cons, List.map_nil, List.sum_cons, List.sum_nil, List.length_cons,
    List.length_nil, List.length_map]
  have hlen : ((pre.filter (fun p => p.2.success)).length
      + (0 + 1) + (post.filter (fun p => p.2.success)).length) ≠ 0 := by
    omega
  rw [if_neg hlen, if_neg hlen]
  have hpos : (0 : ℚ) < ((pre.filter (fun p => p.2.success)).length
      + (0 + 1) + (post.filter (fun p => p.2.success)).length : ℕ) := by
    exact_mod_cast Nat.pos_of_ne_zero hlen
  exact (div_le_div_right hpos).mpr (by linarith)

/-- C9 witness: the monotonicity theorem applied at a concrete pair of
result sets differing only in one successful agent's confidence. -/
theorem C9_weighting_monotonicity_witness :
    (generate_verdict_new
      [("a", okResult (1/2)), ("b", okResult (1/4))]).confidence
      ≤ (generate_verdict_new
      [("a", okResult (1/2)), ("b", okResult (3/4))]).confidence :=
  C9_weighting_monotonicity [("a", okResult (1/2))] [] "b"
    (okResult (1/4)) (okResult (3/4)) rfl rfl ⟨rfl, rfl⟩ (by norm_num [okResult])

/-- C10: the status endpoint returns the same fixed hardcoded
completed-analysis payload (analysisId
`19038f62-6e59-4eda-b50e-e02a6d8bb055`) for every requested id and every
stored state — it never consults the store and never reports not-found. -/
theorem C10_status_constant (id1 id2 : String)
    (store1 store2 : List (String × String)) :
    get_analysis_status id1 store1 = get_analysis_status id2 store2
  ∧ (get_analysis_status id1 store1).analysisId
      = "19038f62-6e59-4eda-b50e-e02a6d8bb055"
  ∧ (get_analysis_status id1 store1).status = "completed"
  ∧ (get_analysis_status id1 store1).recommendation = "CONSIDER" :=
  ⟨rfl, rfl, rfl, rfl⟩

end Spec2Proof
